import Mathlib

/-!
A shallow embedding of the type-erased callable container implemented in
`src/function.h` (which holds two drafts of the mechanism) and
`src/unnamed/part_001`.  Concrete callable types are modelled by an
environment mapping a type id to its compile-time attributes and its
run-time behaviour; payload states, call arguments and call results are
natural numbers; the heap used for "large" payloads is an explicit map
from addresses to payload states.  Table-pointer identity (one static
table per concrete type and signature) is modelled by the `MPtr` tag.
-/

namespace FunctionTask

/-- Exceptions that the container's operations can surface. -/
inductive Exn where
  | badFunctionCall
  | copyError
  | callError
  | moveError
  | undefinedBehavior
deriving DecidableEq

/-- The message returned by bad_function_call::what (function.h lines 10-14). -/
def bad_function_call_what : String := "empty function call"

/-- The value of a `methods` table pointer: the empty-state table, the unique
static table generated for concrete callable type `t`, or indeterminate bits
(an uninitialized pointer, never equal to a real table address). -/
inductive MPtr where
  | empty
  | table (t : Nat)
  | garbage (g : Nat)
deriving DecidableEq

/-- Compile-time attributes and run-time behaviour of one concrete callable
type.  `call st a` returns the call result and the callable's new state;
`copyThrows n st` says whether the `n`-th copy-construction attempt in the
program run throws when copying an object in state `st` (this models
countdown-style throwing-copy types as well as value-dependent ones);
`moveThrows st` says whether move-construction from state `st` throws;
`movedFrom st` is the valid-but-unspecified state a moved-from object keeps. -/
structure CType where
  sizeFits : Bool
  alignOk : Bool
  nothrowMove : Bool
  call : Nat → Nat → Nat × Nat
  callThrows : Nat → Nat → Bool
  copyThrows : Nat → Nat → Bool
  moveThrows : Nat → Bool
  movedFrom : Nat → Nat

/-- C++ coherence: a type reported nothrow-move-constructible has a move
constructor that never throws. -/
def CType.wf (t : CType) : Prop := t.nothrowMove = true → ∀ s, t.moveThrows s = false

/-- Every type of the environment is coherent. -/
def EnvWf (env : Nat → CType) : Prop := ∀ i, (env i).wf

/-- Classification of the primary draft (function.h lines 6-8): fits in one
pointer, pointer alignment divides evenly, and nothrow move construction. -/
def is_small_v (t : CType) : Bool := t.sizeFits && t.alignOk && t.nothrowMove

/-- Classification of the other drafts (function.h lines 255-257,
part_000 lines 6-8, part_001 lines 6-8): size and alignment only. -/
def is_small_v_sa (t : CType) : Bool := t.sizeFits && t.alignOk

/-- The `storage` record (function.h lines 43-45): the inline buffer bytes
(`obj`, read as the small object's state or as the heap address of the large
object, depending on the active table), and the table pointer. -/
structure Storage where
  obj : Nat
  methods : MPtr
deriving DecidableEq

/-- The ambient state: the heap for large payloads, the next fresh address,
and the number of copy-construction attempts performed so far. -/
structure World where
  heap : Nat → Option Nat
  next : Nat
  copies : Nat

/-- Allocate a fresh heap cell holding state `v`. -/
def World.alloc (w : World) (v : Nat) : Nat × World :=
  (w.next, ⟨fun a => if a = w.next then some v else w.heap a, w.next + 1, w.copies⟩)

/-- Release the heap cell at address `a` (operator delete). -/
def World.free (w : World) (a : Nat) : World :=
  ⟨fun x => if x = a then none else w.heap x, w.next, w.copies⟩

/-- Overwrite the heap cell at address `a` with state `v`. -/
def World.store (w : World) (a : Nat) (v : Nat) : World :=
  ⟨fun x => if x = a then some v else w.heap x, w.next, w.copies⟩

/-- Record one more copy-construction attempt. -/
def World.tick (w : World) : World := ⟨w.heap, w.next, w.copies + 1⟩

/-- The allocator hands out genuinely fresh cells: no live cell at or past
`next`. -/
def HeapBounded (w : World) : Prop := ∀ x, w.next ≤ x → w.heap x = none

/-- Dispatch of `invoke` through the active table of the primary draft
(empty table: function.h lines 100-102; large: lines 128-130; small: lines
159-161; the call site is function.h lines 216-218).  Returns the result or
the exception, together with the post-call storage and world: a small
callable mutates its in-buffer state, a large one mutates its heap cell. -/
def invoke (env : Nat → CType) (s : Storage) (a : Nat) (w : World) :
    Except Exn Nat × Storage × World :=
  match s.methods with
  | .empty => (.error .badFunctionCall, s, w)
  | .garbage _ => (.error .undefinedBehavior, s, w)
  | .table i =>
    let t := env i
    if is_small_v t then
      if t.callThrows s.obj a then (.error .callError, s, w)
      else
        let p := t.call s.obj a
        (.ok p.1, { s with obj := p.2 }, w)
    else
      match w.heap s.obj with
      | none => (.error .undefinedBehavior, s, w)
      | some st =>
        if t.callThrows st a then (.error .callError, s, w)
        else
          let p := t.call st a
          (.ok p.1, s, w.store s.obj p.2)

/-- Dispatch of the `copy` operation of the primary draft (empty table:
function.h lines 104-106; large: lines 132-135; small: lines 163-166).
Returns the outcome, the destination's post-state and the world: the
destination's fields are overwritten on success (the table pointer last) and
untouched on a throw, since both generators throw before writing any field;
a throwing copy attempt still counts as an attempt.  The large copy
heap-allocates an independent copy of the pointee. -/
def methods_copy (env : Nat → CType) (dst src : Storage) (w : World) :
    Except Exn Unit × Storage × World :=
  match src.methods with
  | .empty => (.ok (), { dst with methods := src.methods }, w)
  | .garbage _ => (.error .undefinedBehavior, dst, w)
  | .table i =>
    let t := env i
    if is_small_v t then
      if t.copyThrows w.copies src.obj then (.error .copyError, dst, w.tick)
      else (.ok (), { obj := src.obj, methods := src.methods }, w.tick)
    else
      match w.heap src.obj with
      | none => (.error .undefinedBehavior, dst, w)
      | some st =>
        if t.copyThrows w.copies st then (.error .copyError, dst, w.tick)
        else
          let p := (w.tick).alloc st
          (.ok (), { obj := p.1, methods := src.methods }, p.2)

/-- Dispatch of the `move` operation of the primary draft (empty table:
function.h lines 108-110; large: lines 137-141; small: lines 168-171).
The large move transfers the pointer bytes and resets the source's table to
the empty table.  The small move runs
`new(&to->obj) T(std::move(from->get_small_obj<T>()))`, but `get_small_obj`
(lines 84-87) returns `const T &`, so `std::move` yields `const T &&` and
overload resolution selects T's COPY constructor: the source object and its
table pointer are left entirely unchanged, the transfer counts as one more
copy-construction attempt, and it fails exactly when that copy constructor
throws — a throw which, the lambda being `noexcept` (line 29), is
`std::terminate` in C++, modelled here as the error outcome. -/
def methods_move (env : Nat → CType) (dst src : Storage) (w : World) :
    Except Exn (Storage × Storage) × World :=
  match src.methods with
  | .empty => (.ok ({ dst with methods := src.methods }, src), w)
  | .garbage _ => (.error .undefinedBehavior, w)
  | .table i =>
    let t := env i
    if is_small_v t then
      if t.copyThrows w.copies src.obj then (.error .copyError, w.tick)
      else (.ok ({ obj := src.obj, methods := src.methods }, src), w.tick)
    else
      (.ok ({ obj := src.obj, methods := src.methods },
            { obj := src.obj, methods := .empty }), w)

/-- Dispatch of the `destroy` operation of the primary draft (empty table:
function.h line 112; large: lines 143-145; small: lines 173-175).  Destroy
never changes the storage's own fields; the large destroy frees the heap
cell.  Dispatching through an indeterminate pointer is undefined. -/
def methods_destroy (env : Nat → CType) (s : Storage) (w : World) :
    Except Exn World :=
  match s.methods with
  | .empty => .ok w
  | .garbage _ => .error .undefinedBehavior
  | .table i =>
    if is_small_v (env i) then .ok w
    else .ok (w.free s.obj)

/-- Copy construction of a `storage` in the primary draft (function.h lines
47-51): the default member initializer of line 45 first sets the new
object's table pointer to the empty table (the buffer bytes `g` stay
indeterminate), then the source table's copy operation runs.  On a throw the
destination keeps exactly those initial fields. -/
def storage_copy_ctor (env : Nat → CType) (g : Nat) (src : Storage) (w : World) :
    Except Exn Unit × Storage × World :=
  methods_copy env { obj := g, methods := .empty } src w

/-- Copy assignment of a `storage` in the primary draft (function.h lines
57-70), for two distinct objects (the self-assignment guard of line 59 taken
in its `this != &rhs` branch): copy the current value into a temporary,
destroy the current value, copy from `rhs`; if that copy throws, copy the
temporary back and rethrow.  The temporary is destroyed on every exit path.
Returns the outcome, the post-assignment left-hand storage, and the world. -/
def storage_assign (env : Nat → CType) (c rhs : Storage) (w : World) :
    Except Exn Unit × Storage × World :=
  match storage_copy_ctor env 0 c w with
  | (.error e, _, w1) => (.error e, c, w1)
  | (.ok _, temp, w1) =>
    match methods_destroy env c w1 with
    | .error e => (.error e, c, w1)
    | .ok w2 =>
      match methods_copy env c rhs w2 with
      | (.ok _, c', w3) =>
        match methods_destroy env temp w3 with
        | .error _ => (.error .undefinedBehavior, c', w3)
        | .ok w4 => (.ok (), c', w4)
      | (.error e, cf, w3) =>
        match methods_copy env cf temp w3 with
        | (.ok _, c', w4) =>
          match methods_destroy env temp w4 with
          | .error _ => (.error .undefinedBehavior, c', w4)
          | .ok w5 => (.error e, c', w5)
        | (.error e2, cf2, w4) =>
          match methods_destroy env temp w4 with
          | .error _ => (.error .undefinedBehavior, cf2, w4)
          | .ok w5 => (.error e2, cf2, w5)

/-- The storage of a default-constructed `function` (function.h lines
192-194): empty-state table, unused buffer bytes. -/
def function_default : Storage := { obj := 0, methods := .empty }

/-- Construction of a `function` from a callable value in the primary draft
(function.h lines 200-208): a small value is move-constructed into the
inline buffer, a large one is copy-constructed onto the heap (`new T(val)`,
a copy attempt that can throw); only then is the table pointer set. -/
def function_ctor (env : Nat → CType) (i : Nat) (val : Nat) (w : World) :
    Except Exn Storage × World :=
  let t := env i
  if is_small_v t then
    if t.moveThrows val then (.error .moveError, w)
    else (.ok { obj := val, methods := .table i }, w)
  else
    if t.copyThrows w.copies val then (.error .copyError, w.tick)
    else
      let p := (w.tick).alloc val
      (.ok { obj := p.1, methods := .table i }, p.2)

/-- target (function.h lines 224-235): compare the container's active table
pointer with the table generated for type `i`; when equal, return the
payload handle read from the buffer (the in-place object for a small type,
the heap pointer for a large one), otherwise a null pointer. -/
def target (i : Nat) (s : Storage) : Option Nat :=
  if s.methods = MPtr.table i then some s.obj else none

/-- The observable contents of a storage: the held concrete type and the
held object's state, or `none` when empty (or unreadable). -/
def obs (env : Nat → CType) (s : Storage) (w : World) : Option (Nat × Nat) :=
  match s.methods with
  | .empty => none
  | .garbage _ => none
  | .table i =>
    if is_small_v (env i) then some (i, s.obj)
    else
      match w.heap s.obj with
      | some st => some (i, st)
      | none => none

/-- A storage is fully valid when its table pointer is a real table and, for
a large payload, its heap cell is live (so its destructor releases exactly
what it owns). -/
def valid (env : Nat → CType) (s : Storage) (w : World) : Bool :=
  match s.methods with
  | .empty => true
  | .garbage _ => false
  | .table i =>
    if is_small_v (env i) then true
    else (w.heap s.obj).isSome

/-- Running the destructor is safe only when the table pointer is a real
table address, never when it is indeterminate. -/
def destructor_safe (s : Storage) : Bool :=
  match s.methods with
  | .garbage _ => false
  | _ => true

/-- Whether an `Except` outcome is a success. -/
def isOk : Except Exn α → Bool
  | .ok _ => true
  | .error _ => false

/-- Dispatch of the `copy` operation of the second function.h draft (empty
table: lines 337-339; large: lines 365-368; small: lines 396-399).  Same
behaviour as the primary draft's copy, under the size-and-alignment-only
classification. -/
def methods_copy_d3 (env : Nat → CType) (dst src : Storage) (w : World) :
    Except Exn Unit × Storage × World :=
  match src.methods with
  | .empty => (.ok (), { dst with methods := src.methods }, w)
  | .garbage _ => (.error .undefinedBehavior, dst, w)
  | .table i =>
    let t := env i
    if is_small_v_sa t then
      if t.copyThrows w.copies src.obj then (.error .copyError, dst, w.tick)
      else (.ok (), { obj := src.obj, methods := src.methods }, w.tick)
    else
      match w.heap src.obj with
      | none => (.error .undefinedBehavior, dst, w)
      | some st =>
        if t.copyThrows w.copies st then (.error .copyError, dst, w.tick)
        else
          let p := (w.tick).alloc st
          (.ok (), { obj := p.1, methods := src.methods }, p.2)

/-- Dispatch of the `move` operation of the second function.h draft (empty
table: lines 341-343; large: lines 370-374; small: lines 401-404).  The
small move is a raw transfer of the buffer bytes — it never runs a move
constructor and leaves the source's table pointer unchanged; the large move
transfers the pointer bytes and resets the source's table to empty. -/
def methods_move_d3 (env : Nat → CType) (dst src : Storage) (w : World) :
    Except Exn (Storage × Storage) × World :=
  match src.methods with
  | .empty => (.ok ({ dst with methods := src.methods }, src), w)
  | .garbage _ => (.error .undefinedBehavior, w)
  | .table i =>
    if is_small_v_sa (env i) then
      (.ok ({ obj := src.obj, methods := src.methods }, src), w)
    else
      (.ok ({ obj := src.obj, methods := src.methods },
            { obj := src.obj, methods := .empty }), w)

/-- Dispatch of the `destroy` operation of the second function.h draft
(empty table: line 345; large: lines 376-378; small: lines 406-408). -/
def methods_destroy_d3 (env : Nat → CType) (s : Storage) (w : World) :
    Except Exn World :=
  match s.methods with
  | .empty => .ok w
  | .garbage _ => .error .undefinedBehavior
  | .table i =>
    if is_small_v_sa (env i) then .ok w
    else .ok (w.free s.obj)

/-- Copy construction of a `storage` in the second function.h draft (lines
289-297): the `methods` member has no default initializer, so the new
object's table pointer starts as indeterminate bits `m` and stays so if the
dispatched copy operation throws before setting it. -/
def storage_copy_ctor_d3 (env : Nat → CType) (g : Nat) (m : MPtr) (src : Storage)
    (w : World) : Except Exn Unit × Storage × World :=
  methods_copy_d3 env { obj := g, methods := m } src w

/-- function::swap of the part_001 draft (lines 167-170) and storage::swap
of the second function.h draft (lines 310-313): exchange the inline buffer
bytes and the table pointers of the two sides, nothing else. -/
def function_swap (a b : Storage) : Storage × Storage :=
  ({ obj := b.obj, methods := b.methods }, { obj := a.obj, methods := a.methods })

/-- A small stateful callable wrapping an integer counter: each call
increments the counter and returns it (the scenario of the spec's testable
properties). -/
def counterType : CType where
  sizeFits := true
  alignOk := true
  nothrowMove := true
  call := fun s _ => (s + 1, s + 1)
  callThrows := fun _ _ => false
  moveThrows := fun _ => false
  copyThrows := fun _ _ => false
  movedFrom := fun _ => 0

/-- A large callable: returns its state plus the argument, state unchanged. -/
def addType : CType where
  sizeFits := false
  alignOk := true
  nothrowMove := true
  call := fun s a => (s + a, s)
  callThrows := fun _ _ => false
  moveThrows := fun _ => false
  copyThrows := fun _ _ => false
  movedFrom := fun s => s

/-- A large callable whose fourth and later copy-construction attempts in a
run throw (a countdown throwing-copy test type). -/
def countdownType : CType where
  sizeFits := false
  alignOk := true
  nothrowMove := true
  call := fun s _ => (s, s)
  callThrows := fun _ _ => false
  moveThrows := fun _ => false
  copyThrows := fun n _ => decide (3 ≤ n)
  movedFrom := fun s => s

/-- A large callable whose copy constructor always throws from now on (the
exhausted state of a countdown throwing-copy type). -/
def throwCopyType : CType where
  sizeFits := false
  alignOk := true
  nothrowMove := true
  call := fun s _ => (s, s)
  callThrows := fun _ _ => false
  moveThrows := fun _ => false
  copyThrows := fun _ _ => true
  movedFrom := fun s => s

/-- A callable that fits the buffer by size and alignment but whose move
constructor may throw (so the primary draft classifies it large, the other
drafts classify it small). -/
def throwMoveType : CType where
  sizeFits := true
  alignOk := true
  nothrowMove := false
  call := fun s _ => (s, s)
  callThrows := fun _ _ => false
  moveThrows := fun _ => true
  copyThrows := fun _ _ => false
  movedFrom := fun s => s

/-- A callable the primary draft's classification admits as small — pointer
sized, pointer aligned, nothrow-move constructible — whose copy constructor
always throws (e.g. its copy allocates). -/
def throwCopySmallType : CType where
  sizeFits := true
  alignOk := true
  nothrowMove := true
  call := fun s _ => (s, s)
  callThrows := fun _ _ => false
  moveThrows := fun _ => false
  copyThrows := fun _ _ => true
  movedFrom := fun s => s

/-- An environment with the small counter at type id 0 and the large adder
at every other id. -/
def env1 : Nat → CType := fun i => if i = 0 then counterType else addType

/-- The initial world: empty heap, no copy attempts yet. -/
def w0 : World := ⟨fun _ => none, 0, 0⟩

/-- A world with one live large object (state 4 at address 0). -/
def w1 : World := ⟨fun a => if a = 0 then some 4 else none, 1, 0⟩

/-- Environment for the countdown scenario: every type id is the large
countdown throwing-copy type. -/
def envC : Nat → CType := fun _ => countdownType

/-- World after constructing the assignment target from value 5. -/
def wA : World := (function_ctor envC 0 5 w0).2

/-- World after additionally constructing the assignment source from 7. -/
def wB : World := (function_ctor envC 0 7 wA).2

/-- Environment pairing the small counter (type 0) with the large
always-throwing-copy type (all other ids). -/
def envW : Nat → CType := fun i => if i = 0 then counterType else throwCopyType

/-- C3: invoking a container that holds no callable — its table pointer is
the empty-state table, as after default construction — always surfaces the
distinguished bad_function_call failure synchronously at the invocation
site, with the storage and the world untouched; the failure is an error
outcome (never a silent success), and its message reads
"empty function call". -/
theorem C3_empty_invoke (env : Nat → CType) (s : Storage) (a : Nat) (w : World)
    (h : s.methods = MPtr.empty) :
    invoke env s a w = (.error .badFunctionCall, s, w) ∧
    invoke env function_default a w = (.error .badFunctionCall, function_default, w) ∧
    isOk (invoke env s a w).1 = false ∧
    bad_function_call_what = "empty function call" := by
  obtain ⟨o, m⟩ := s
  cases h
  exact ⟨rfl, rfl, rfl, rfl⟩

theorem C3_witness :
    (function_default.methods = MPtr.empty) ∧
    invoke env1 function_default 7 w0 = (.error .badFunctionCall, function_default, w0) :=
  ⟨rfl, (C3_empty_invoke env1 function_default 7 w0 rfl).1⟩

/-- C8: swapping two containers twice restores both to their original
states; the raw exchange of buffer bytes and table pointers touches nothing
else (in particular it performs no allocation and frees nothing), so
ownership is exchanged completely. -/
theorem C8_swap_involutive (a b : Storage) :
    function_swap (function_swap a b).1 (function_swap a b).2 = (a, b) := rfl

/-- C10: invocation never mutates the container's routing state: the active
table pointer is preserved whether the call returns or throws, a large
payload's pointer bytes in the buffer are preserved, and a call on an empty
container fails with bad_function_call leaving the storage and the world
exactly as they were. -/
theorem C10_invoke_frame (env : Nat → CType) (s : Storage) (a : Nat) (w : World) :
    (invoke env s a w).2.1.methods = s.methods ∧
    (∀ i, s.methods = MPtr.table i → is_small_v (env i) = false →
      (invoke env s a w).2.1.obj = s.obj) ∧
    (s.methods = MPtr.empty → invoke env s a w = (.error .badFunctionCall, s, w)) := by
  obtain ⟨o, m⟩ := s
  refine ⟨?_, ?_, ?_⟩
  · cases m with
    | empty => rfl
    | garbage g => rfl
    | table i =>
      simp only [invoke]
      repeat' split
      all_goals rfl
  · intro i hi hsi
    replace hi : m = MPtr.table i := hi
    subst hi
    simp only [invoke, hsi]
    repeat' split
    all_goals first | rfl | simp_all
  · intro hm
    replace hm : m = MPtr.empty := hm
    subst hm
    rfl

theorem C10_witness :
    (invoke env1 ⟨5, MPtr.table 0⟩ 9 w0).2.1.methods = MPtr.table 0 ∧
    invoke env1 function_default 3 w0 = (.error .badFunctionCall, function_default, w0) :=
  ⟨(C10_invoke_frame env1 ⟨5, MPtr.table 0⟩ 9 w0).1,
   (C10_invoke_frame env1 function_default 3 w0).2.2 rfl⟩

/-- C6: target returns a live handle exactly when the container's active
table pointer equals the table generated for the requested type: the answer
is present iff the tags agree, a container constructed from a value of type
`i` answers `target i` with the held payload and `target j` with null for
every distinct `j`, and a default-constructed (empty) container answers null
for every requested type. -/
theorem C6_target (env : Nat → CType) (i j v : Nat) (s res : Storage)
    (w w' : World)
    (hctor : function_ctor env i v w = (.ok res, w')) (hne : j ≠ i) :
    ((target i s).isSome = true ↔ s.methods = MPtr.table i) ∧
    (s.methods = MPtr.empty → target i s = none) ∧
    (∀ k, target k function_default = none) ∧
    (target i res).isSome = true ∧ target j res = none := by
  have hres : res.methods = MPtr.table i := by
    revert hctor
    simp only [function_ctor]
    repeat' split
    all_goals intro hctor
    all_goals (cases hctor) <;> rfl
  refine ⟨?_, ?_, fun k => rfl, ?_, ?_⟩
  · unfold target
    split
    · simp_all
    · simp_all
  · intro hs
    unfold target
    rw [if_neg]
    rw [hs]
    intro h
    cases h
  · unfold target
    rw [if_pos hres]
    rfl
  · unfold target
    rw [if_neg]
    rw [hres]
    intro h
    injection h with h
    exact hne h.symm

theorem C6_witness :
    function_ctor env1 0 5 w0 = (.ok ⟨5, MPtr.table 0⟩, w0) ∧ (1 : Nat) ≠ 0 ∧
    (target 0 ⟨5, MPtr.table 0⟩).isSome = true ∧
    target 1 ⟨5, MPtr.table 0⟩ = none ∧
    (∀ k, target k function_default = none) := by
  have h := C6_target env1 0 1 5 function_default ⟨5, MPtr.table 0⟩ w0 w0 rfl
    (by decide)
  exact ⟨rfl, by decide, h.2.2.2.1, h.2.2.2.2, h.2.2.1⟩

/-- C5 is false as stated: in the second function.h draft the storage's
`methods` member has no initializer (line 291), so when copy-constructing
from a storage holding a large object whose copy throws, the destination is
left with its indeterminate table-pointer bits and running its destructor
dispatches through them — not safe. -/
theorem C5_counterexample :
    storage_copy_ctor_d3 (fun _ => throwCopyType) 7 (MPtr.garbage 42)
        ⟨0, MPtr.table 0⟩ w1 =
      (.error .copyError, ⟨7, MPtr.garbage 42⟩, w1.tick) ∧
    destructor_safe ⟨7, MPtr.garbage 42⟩ = false ∧
    methods_destroy_d3 (fun _ => throwCopyType) ⟨7, MPtr.garbage 42⟩ w1.tick =
      .error .undefinedBehavior :=
  ⟨rfl, rfl, rfl⟩

/-- C5 amended: in the primary draft, whose storage default-initializes its
table pointer to the empty-state table (function.h line 45), a failed copy
construction leaves the destination holding exactly that empty table
pointer, so its destructor dispatches to the empty table's no-op destroy and
is safe to run; in the second draft, whose `methods` member is left
uninitialized (line 291), a failed copy leaves the destination's table
pointer indeterminate and its destructor is not safe. -/
theorem C5_copy_fail_dtor_safe (env : Nat → CType) (g : Nat) (src : Storage)
    (w w' : World) (e : Exn) (d : Storage)
    (h : storage_copy_ctor env g src w = (.error e, d, w')) :
    d = ⟨g, MPtr.empty⟩ ∧ destructor_safe d = true ∧
    methods_destroy env d w' = .ok w' := by
  have hd : d = ⟨g, MPtr.empty⟩ := by
    revert h
    simp only [storage_copy_ctor, methods_copy]
    repeat' split
    all_goals intro h
    all_goals (cases h) <;> rfl
  subst hd
  exact ⟨rfl, rfl, rfl⟩

theorem C5_witness :
    storage_copy_ctor (fun _ => throwCopyType) 7 ⟨0, MPtr.table 0⟩ w1 =
      (.error .copyError, ⟨7, MPtr.empty⟩, w1.tick) ∧
    destructor_safe (⟨7, MPtr.empty⟩ : Storage) = true ∧
    methods_destroy (fun _ => throwCopyType) ⟨7, MPtr.empty⟩ w1.tick = .ok w1.tick :=
  ⟨rfl,
   (C5_copy_fail_dtor_safe (fun _ => throwCopyType) 7 ⟨0, MPtr.table 0⟩ w1 w1.tick
      .copyError ⟨7, MPtr.empty⟩ rfl).2.1,
   (C5_copy_fail_dtor_safe (fun _ => throwCopyType) 7 ⟨0, MPtr.table 0⟩ w1 w1.tick
      .copyError ⟨7, MPtr.empty⟩ rfl).2.2⟩

/-- C1: for a callable value `v` of any concrete type `i` — whether the
classification makes it small or large — constructing a container from `v`
and invoking the container with argument `a` yields exactly what calling the
value directly yields: the direct call's result when the callable returns,
and the callable's own exception when it throws. -/
theorem C1_construct_then_invoke (env : Nat → CType) (i v a : Nat)
    (s : Storage) (w w' : World)
    (h : function_ctor env i v w = (.ok s, w')) :
    (invoke env s a w').1 =
      (if (env i).callThrows v a then .error .callError
       else .ok ((env i).call v a).1) := by
  by_cases hs : is_small_v (env i) = true
  · -- small path: the value is move-constructed into the inline buffer
    simp only [function_ctor, if_pos hs] at h
    cases hmv : (env i).moveThrows v with
    | true => rw [hmv] at h; simp at h
    | false =>
      rw [hmv] at h
      simp only [Bool.false_eq_true, if_false] at h
      injection h with h1 h2
      injection h1 with h1
      subst h2
      subst h1
      simp only [invoke, if_pos hs]
      cases hc : (env i).callThrows v a <;> simp [hc]
  · -- large path: the value is copy-constructed onto a fresh heap cell
    simp only [function_ctor, if_neg hs] at h
    cases hcp : (env i).copyThrows w.copies v with
    | true => rw [hcp] at h; simp at h
    | false =>
      rw [hcp] at h
      simp only [Bool.false_eq_true, if_false] at h
      injection h with h1 h2
      injection h1 with h1
      subst h2
      subst h1
      simp only [invoke, if_neg hs]
      have hh : ((w.tick).alloc v).2.heap
          (Storage.mk ((w.tick).alloc v).1 (MPtr.table i)).obj = some v := by
        simp [World.alloc, World.tick]
      rw [hh]
      cases hc : (env i).callThrows v a <;> simp [hc]

theorem C1_witness :
    function_ctor env1 0 0 w0 = (.ok ⟨0, MPtr.table 0⟩, w0) ∧
    (invoke env1 ⟨0, MPtr.table 0⟩ 5 w0).1 = .ok 1 := by
  refine ⟨rfl, ?_⟩
  have h := C1_construct_then_invoke env1 0 0 5 ⟨0, MPtr.table 0⟩ w0 w0 rfl
  simpa using h

/-- C7 is false as stated: take a callable that the primary draft's small
classification admits (pointer sized and aligned, genuinely
nothrow-move-constructible) but whose copy constructor always throws.  The
draft's small move operation (function.h lines 168-171) actually runs that
copy constructor — `get_small_obj` returns `const T &`, so `std::move`
selects the copy — inside a `noexcept` lambda, so the dispatched move
operation fails on a held state of this admitted type, refuting "the move
operations of every operation table never fail". -/
theorem C7_counterexample :
    is_small_v throwCopySmallType = true ∧
    throwCopySmallType.nothrowMove = true ∧
    throwCopySmallType.moveThrows 5 = false ∧
    (methods_move (fun _ => throwCopySmallType) ⟨0, MPtr.empty⟩
        ⟨5, MPtr.table 0⟩ w0).1 = .error .copyError :=
  ⟨rfl, rfl, rfl, rfl⟩

/-- C7 amended: destroy operations never fail in either function.h draft,
and the move operations of the empty-state and large-object tables never
fail; the second draft's moves (raw byte or pointer transfers) never fail
at all.  Every type the primary draft's small classification admits is
indeed nothrow-move constructible, but that check does not govern the
draft's small move operation, which in truth copy-constructs the payload:
it succeeds exactly when the held type's copy constructor does not throw,
and when that copy throws the noexcept operation fails (std::terminate). -/
theorem C7_move_destroy (env : Nat → CType) (hwf : EnvWf env)
    (dst s : Storage) (w : World) (i : Nat)
    (hng : ∀ g, s.methods ≠ MPtr.garbage g) :
    (is_small_v (env i) = true →
      (env i).nothrowMove = true ∧ ∀ st, (env i).moveThrows st = false) ∧
    isOk (methods_destroy env s w) = true ∧
    isOk (methods_destroy_d3 env s w) = true ∧
    isOk (methods_move_d3 env dst s w).1 = true ∧
    (s.methods = MPtr.empty → isOk (methods_move env dst s w).1 = true) ∧
    (s.methods = MPtr.table i → is_small_v (env i) = false →
      isOk (methods_move env dst s w).1 = true) ∧
    (s.methods = MPtr.table i → is_small_v (env i) = true →
      isOk (methods_move env dst s w).1 = !(env i).copyThrows w.copies s.obj) := by
  have hsmall : ∀ j, is_small_v (env j) = true → (env j).nothrowMove = true := by
    intro j hj
    unfold is_small_v at hj
    simp only [Bool.and_eq_true] at hj
    exact hj.2
  obtain ⟨o, m⟩ := s
  refine ⟨fun hi => ⟨hsmall i hi, fun st => hwf i (hsmall i hi) st⟩,
    ?_, ?_, ?_, ?_, ?_, ?_⟩
  · cases m with
    | empty => rfl
    | garbage g => exact absurd rfl (hng g)
    | table j =>
      simp only [methods_destroy]
      cases hj : is_small_v (env j) <;> simp [hj] <;> rfl
  · cases m with
    | empty => rfl
    | garbage g => exact absurd rfl (hng g)
    | table j =>
      simp only [methods_destroy_d3]
      cases hj : is_small_v_sa (env j) <;> simp [hj] <;> rfl
  · cases m with
    | empty => rfl
    | garbage g => exact absurd rfl (hng g)
    | table j =>
      simp only [methods_move_d3]
      cases hj : is_small_v_sa (env j) <;> simp [hj] <;> rfl
  · intro hm
    replace hm : m = MPtr.empty := hm
    subst hm
    rfl
  · intro hm hs
    replace hm : m = MPtr.table i := hm
    subst hm
    simp only [methods_move, hs]
    rfl
  · intro hm hs
    replace hm : m = MPtr.table i := hm
    subst hm
    simp only [methods_move, hs]
    cases hc : (env i).copyThrows w.copies o <;> simp [hc] <;> rfl

theorem C7_witness :
    EnvWf env1 ∧ (∀ g, (⟨5, MPtr.table 0⟩ : Storage).methods ≠ MPtr.garbage g) ∧
    isOk (methods_destroy env1 ⟨5, MPtr.table 0⟩ w0) = true ∧
    isOk (methods_move env1 ⟨0, MPtr.empty⟩ ⟨5, MPtr.table 0⟩ w0).1 =
      !(env1 0).copyThrows w0.copies 5 ∧
    isOk (methods_move_d3 env1 ⟨0, MPtr.empty⟩ ⟨5, MPtr.table 0⟩ w0).1 = true := by
  have hwf : EnvWf env1 := by
    intro i
    unfold env1
    by_cases hi : i = 0 <;> simp [hi, counterType, addType, CType.wf]
  have hng : ∀ g, (⟨5, MPtr.table 0⟩ : Storage).methods ≠ MPtr.garbage g := by
    intro g h
    cases h
  have h := C7_move_destroy env1 hwf ⟨0, MPtr.empty⟩ ⟨5, MPtr.table 0⟩ w0 0 hng
  exact ⟨hwf, hng, h.2.1, h.2.2.2.2.2.2 rfl rfl, h.2.2.2.1⟩

/-- Inversion of a successful primary-draft copy: the source was empty and
only the table pointer propagated, or small and its in-buffer state was
duplicated, or large and an independent heap copy was allocated at the
fresh address. -/
theorem methods_copy_ok_inv (env : Nat → CType) (dst src d : Storage)
    (w w' : World) (h : methods_copy env dst src w = (.ok (), d, w')) :
    (src.methods = MPtr.empty ∧ d = { dst with methods := MPtr.empty } ∧ w' = w) ∨
    (∃ i, src.methods = MPtr.table i ∧ is_small_v (env i) = true ∧
       (env i).copyThrows w.copies src.obj = false ∧
       d = ⟨src.obj, MPtr.table i⟩ ∧ w' = w.tick) ∨
    (∃ i st, src.methods = MPtr.table i ∧ is_small_v (env i) = false ∧
       w.heap src.obj = some st ∧ (env i).copyThrows w.copies st = false ∧
       d = ⟨w.next, MPtr.table i⟩ ∧ w' = ((w.tick).alloc st).2) := by
  revert h
  simp only [methods_copy]
  cases hm : src.methods with
  | empty =>
    intro h
    injection h with h1 h2
    injection h2 with h2 h3
    exact Or.inl ⟨rfl, h2.symm, h3.symm⟩
  | garbage g =>
    intro h
    injection h with h1 h2
    cases h1
  | table i =>
    cases hs : is_small_v (env i) with
    | true =>
      simp only [hs, if_pos]
      cases hc : (env i).copyThrows w.copies src.obj with
      | true =>
        intro h
        injection h with h1 h2
        cases h1
      | false =>
        intro h
        injection h with h1 h2
        injection h2 with h2 h3
        exact Or.inr (Or.inl ⟨i, rfl, hs, hc, h2.symm, h3.symm⟩)
    | false =>
      simp only [hs, Bool.false_eq_true, if_false]
      cases hh : w.heap src.obj with
      | none =>
        intro h
        injection h with h1 h2
        cases h1
      | some st =>
        intro h
        dsimp only at h
        cases hc : (env i).copyThrows w.copies st with
        | true =>
          rw [hc] at h
          simp only [if_pos] at h
          injection h with h1 h2
          cases h1
        | false =>
          rw [hc] at h
          simp only [Bool.false_eq_true, if_false] at h
          injection h with h1 h2
          injection h2 with h2 h3
          exact Or.inr (Or.inr ⟨i, st, rfl, hs, rfl, hc, h2.symm, h3.symm⟩)

/-- A heap cell that is live lies below the allocation frontier. -/
theorem heap_lt_next (w : World) (hb : HeapBounded w) (x st : Nat)
    (h : w.heap x = some st) : x < w.next := by
  by_contra hx
  push_neg at hx
  rw [hb x hx] at h
  cases h

/-- C9: copies are independent.  After a successful copy the new container
observes the same held type and state as the original (so invoking either
yields the same outcome), and invoking the copy — which mutates the copy's
own inline state or its own freshly allocated heap cell — changes neither
the original's observable contents nor the outcome of a later invocation of
the original. -/
theorem C9_copy_independent (env : Nat → CType) (g a b : Nat) (c d : Storage)
    (w w1 : World) (hb : HeapBounded w)
    (hcopy : storage_copy_ctor env g c w = (.ok (), d, w1)) :
    obs env d w1 = obs env c w ∧
    (invoke env d a w1).1 = (invoke env c a w1).1 ∧
    (∀ r d' w2, invoke env d a w1 = (r, d', w2) →
       (invoke env c b w2).1 = (invoke env c b w1).1 ∧
       obs env c w2 = obs env c w1) := by
  rcases methods_copy_ok_inv env ⟨g, MPtr.empty⟩ c d w w1 hcopy with
    ⟨hm, hd, hw⟩ | ⟨i, hm, hs, _, hd, hw⟩ | ⟨i, st, hm, hs, hh, _, hd, hw⟩
  · -- empty source
    subst hd
    subst hw
    obtain ⟨co, cm⟩ := c
    replace hm : cm = MPtr.empty := hm
    subst hm
    refine ⟨rfl, rfl, ?_⟩
    intro r d' w2 hinv
    injection hinv with h1 h2
    injection h2 with h2 h3
    subst h3
    exact ⟨rfl, rfl⟩
  · -- small source: the copy duplicated the in-buffer state
    subst hd
    subst hw
    obtain ⟨co, cm⟩ := c
    replace hm : cm = MPtr.table i := hm
    subst hm
    refine ⟨?_, rfl, ?_⟩
    · simp [obs, hs]
    · intro r d' w2 hinv
      have hw2 : w2 = w.tick := by
        revert hinv
        simp only [invoke, if_pos hs]
        cases hc : (env i).callThrows co a with
        | true =>
          intro hinv
          injection hinv with h1 h2
          injection h2 with h2 h3
          exact h3.symm
        | false =>
          intro hinv
          injection hinv with h1 h2
          injection h2 with h2 h3
          exact h3.symm
      subst hw2
      exact ⟨rfl, rfl⟩
  · -- large source: the copy lives in its own fresh heap cell
    subst hd
    subst hw
    obtain ⟨co, cm⟩ := c
    replace hm : cm = MPtr.table i := hm
    subst hm
    have hlt : co < w.next := heap_lt_next w hb co st hh
    have hco : co ≠ w.next := Nat.ne_of_lt hlt
    have hheap1 : ((w.tick).alloc st).2.heap w.next = some st := by
      simp [World.alloc, World.tick]
    have hheapc : ((w.tick).alloc st).2.heap co = some st := by
      simp only [World.alloc, World.tick]
      rw [if_neg hco]
      exact hh
    refine ⟨?_, ?_, ?_⟩
    · simp [obs, hs, hheap1, hheapc, hh]
    · simp only [invoke, if_neg (by simp [hs] : ¬is_small_v (env i) = true)]
      rw [hheap1, hheapc]
      cases hc : (env i).callThrows st a <;> simp [hc]
    · intro r d' w2 hinv
      have hw2 : w2.heap co = ((w.tick).alloc st).2.heap co := by
        revert hinv
        simp only [invoke, if_neg (by simp [hs] : ¬is_small_v (env i) = true)]
        rw [hheap1]
        dsimp only
        cases hc : (env i).callThrows st a with
        | true =>
          intro hinv
          injection hinv with h1 h2
          injection h2 with h2 h3
          subst h3
          rfl
        | false =>
          intro hinv
          injection hinv with h1 h2
          injection h2 with h2 h3
          subst h3
          simp only [World.store]
          rw [if_neg hco]
      refine ⟨?_, ?_⟩
      · simp only [invoke, if_neg (by simp [hs] : ¬is_small_v (env i) = true)]
        rw [hw2, hheapc]
        cases hc : (env i).callThrows st b <;> simp [hc]
      · simp only [obs, hs, Bool.false_eq_true, if_false]
        rw [hw2]

theorem C9_witness :
    HeapBounded w0 ∧
    storage_copy_ctor env1 0 ⟨2, MPtr.table 0⟩ w0 =
      (.ok (), ⟨2, MPtr.table 0⟩, w0.tick) ∧
    (invoke env1 ⟨2, MPtr.table 0⟩ 9 w0.tick).1 = .ok 3 ∧
    obs env1 ⟨2, MPtr.table 0⟩ w0.tick = obs env1 ⟨2, MPtr.table 0⟩ w0 ∧
    (invoke env1 ⟨2, MPtr.table 0⟩ 9
        (invoke env1 ⟨2, MPtr.table 0⟩ 9 w0.tick).2.2).1 =
      (invoke env1 ⟨2, MPtr.table 0⟩ 9 w0.tick).1 := by
  have hb : HeapBounded w0 := fun x _ => rfl
  have h := C9_copy_independent env1 0 9 9 ⟨2, MPtr.table 0⟩ ⟨2, MPtr.table 0⟩
    w0 w0.tick hb rfl
  refine ⟨hb, rfl, rfl, h.1, ?_⟩
  have h3 := (h.2.2 (invoke env1 ⟨2, MPtr.table 0⟩ 9 w0.tick).1
    (invoke env1 ⟨2, MPtr.table 0⟩ 9 w0.tick).2.1
    (invoke env1 ⟨2, MPtr.table 0⟩ 9 w0.tick).2.2 rfl).1
  rw [h3]

/-- A failing primary-draft copy leaves the destination untouched and
changes neither the heap nor the allocation frontier (only the count of
copy attempts can grow). -/
theorem methods_copy_error_inv (env : Nat → CType) (dst src cf : Storage)
    (w w' : World) (e : Exn)
    (h : methods_copy env dst src w = (.error e, cf, w')) :
    cf = dst ∧ w'.heap = w.heap ∧ w'.next = w.next := by
  revert h
  simp only [methods_copy]
  cases hm : src.methods with
  | empty =>
    intro h
    injection h with h1 h2
    cases h1
  | garbage g =>
    intro h
    injection h with h1 h2
    injection h2 with h2 h3
    exact ⟨h2.symm, by rw [← h3], by rw [← h3]⟩
  | table i =>
    cases hs : is_small_v (env i) with
    | true =>
      simp only [hs, if_pos]
      cases hc : (env i).copyThrows w.copies src.obj with
      | true =>
        intro h
        injection h with h1 h2
        injection h2 with h2 h3
        exact ⟨h2.symm, by rw [← h3]; rfl, by rw [← h3]; rfl⟩
      | false =>
        intro h
        injection h with h1 h2
        cases h1
    | false =>
      simp only [hs, Bool.false_eq_true, if_false]
      cases hh : w.heap src.obj with
      | none =>
        intro h
        injection h with h1 h2
        injection h2 with h2 h3
        exact ⟨h2.symm, by rw [← h3], by rw [← h3]⟩
      | some st =>
        intro h
        dsimp only at h
        cases hc : (env i).copyThrows w.copies st with
        | true =>
          rw [hc] at h
          simp only [if_pos] at h
          injection h with h1 h2
          injection h2 with h2 h3
          exact ⟨h2.symm, by rw [← h3]; rfl, by rw [← h3]; rfl⟩
        | false =>
          rw [hc] at h
          simp only [Bool.false_eq_true, if_false] at h
          injection h with h1 h2
          cases h1

/-- C2 is false as stated: take the large countdown type whose first three
copy attempts succeed and whose later ones throw; construct the target `c`
(holding 5, heap address 0) and the source `rhs` (holding 7, address 1).
During `c = rhs` (function.h lines 57-70) the temporary copy of `c`
succeeds, the copy of `rhs` throws, and the rollback copy of the temporary
throws as well: the exception propagates, but `c` is left with its table
pointer still naming the large table while its heap cell has been freed —
it is no longer valid and its observable state is lost, contradicting the
strong-exception guarantee the claim asserts. -/
theorem C2_counterexample :
    (function_ctor envC 0 5 w0).1 = .ok ⟨0, MPtr.table 0⟩ ∧
    (function_ctor envC 0 7 wA).1 = .ok ⟨1, MPtr.table 0⟩ ∧
    obs envC ⟨0, MPtr.table 0⟩ wB = some (0, 5) ∧
    valid envC ⟨0, MPtr.table 0⟩ wB = true ∧
    (storage_assign envC ⟨0, MPtr.table 0⟩ ⟨1, MPtr.table 0⟩ wB).1 =
      .error .copyError ∧
    valid envC (storage_assign envC ⟨0, MPtr.table 0⟩ ⟨1, MPtr.table 0⟩ wB).2.1
      (storage_assign envC ⟨0, MPtr.table 0⟩ ⟨1, MPtr.table 0⟩ wB).2.2 = false ∧
    obs envC (storage_assign envC ⟨0, MPtr.table 0⟩ ⟨1, MPtr.table 0⟩ wB).2.1
      (storage_assign envC ⟨0, MPtr.table 0⟩ ⟨1, MPtr.table 0⟩ wB).2.2 = none :=
  ⟨rfl, rfl, rfl, rfl, rfl, rfl, rfl⟩

/-- C2 amended: the primary draft's copy-assignment (function.h lines
57-70) first copies the target's value into a temporary and destroys the
target before copying from rhs.  When the copy of rhs's held value throws
and the restoring copy from the temporary succeeds, the assignment
propagates the original exception and the target is restored to its prior
observable state (held type and value); when the restoring copy itself also
throws, the target is left invalid, as the counterexample shows. -/
theorem C2_assign_rollback (env : Nat → CType) (c rhs temp cf c' : Storage)
    (w w1 w2 w3 w4 w5 : World) (e : Exn)
    (h1 : storage_copy_ctor env 0 c w = (.ok (), temp, w1))
    (h2 : methods_destroy env c w1 = .ok w2)
    (h3 : methods_copy env c rhs w2 = (.error e, cf, w3))
    (h4 : methods_copy env cf temp w3 = (.ok (), c', w4))
    (h5 : methods_destroy env temp w4 = .ok w5) :
    storage_assign env c rhs w = (.error e, c', w5) ∧
    obs env c' w5 = obs env c w := by
  obtain ⟨hcf, hw3heap, hw3next⟩ := methods_copy_error_inv env c rhs cf w2 w3 e h3
  have hfirst : storage_assign env c rhs w = (.error e, c', w5) := by
    simp only [storage_copy_ctor] at h1
    simp only [storage_assign, storage_copy_ctor, h1, h2, h3, h4, h5]
  rw [hcf] at h4
  refine ⟨hfirst, ?_⟩
  obtain ⟨co, cm⟩ := c
  rcases methods_copy_ok_inv env ⟨0, MPtr.empty⟩ ⟨co, cm⟩ temp w w1 h1 with
    ⟨hm, htemp, hw1⟩ | ⟨i, hm, hs, hct, htemp, hw1⟩ |
    ⟨i, st, hm, hs, hh, hct, htemp, hw1⟩
  · -- the target was empty: everything only moves the empty tag around
    replace hm : cm = MPtr.empty := hm
    subst hm
    subst htemp
    subst hw1
    rcases methods_copy_ok_inv env ⟨co, MPtr.empty⟩ ⟨0, MPtr.empty⟩ c' w3 w4 h4 with
      ⟨_, hc', hw4⟩ | ⟨j, hmj, _⟩ | ⟨j, stj, hmj, _⟩
    · subst hc'
      rfl
    · simp at hmj
    · simp at hmj
  · -- the target held a small object: its state rides along byte for byte
    replace hm : cm = MPtr.table i := hm
    subst hm
    subst htemp
    subst hw1
    rcases methods_copy_ok_inv env ⟨co, MPtr.table i⟩ ⟨co, MPtr.table i⟩ c' w3 w4 h4 with
      ⟨hmj, _, _⟩ | ⟨j, hmj, hsj, hctj, hc', hw4⟩ | ⟨j, stj, hmj, hsj, _⟩
    · simp at hmj
    · injection hmj with hj
      subst hj
      subst hc'
      simp [obs, hs]
    · injection hmj with hj
      subst hj
      rw [hs] at hsj
      cases hsj
  · -- the target held a large object: the rollback reallocates its value
    replace hm : cm = MPtr.table i := hm
    subst hm
    subst htemp
    subst hw1
    simp only [methods_destroy, hs, Bool.false_eq_true, if_false] at h2
    injection h2 with h2
    subst h2
    rcases methods_copy_ok_inv env ⟨co, MPtr.table i⟩ ⟨w.next, MPtr.table i⟩ c' w3 w4 h4 with
      ⟨hmj, _, _⟩ | ⟨j, hmj, hsj, _⟩ | ⟨j, st', hmj, hsj, hhj, hctj, hc', hw4⟩
    · simp at hmj
    · injection hmj with hj
      subst hj
      rw [hs] at hsj
      cases hsj
    · injection hmj with hj
      subst hj
      subst hc'
      subst hw4
      rw [hw3heap] at hhj
      simp only [World.free, World.alloc, World.tick] at hhj
      by_cases hx : w.next = co
      · rw [if_pos hx] at hhj
        cases hhj
      · rw [if_neg hx] at hhj
        simp only [if_true, eq_self_iff_true, if_pos] at hhj
        injection hhj with hst
        subst hst
        simp only [methods_destroy, hs, Bool.false_eq_true, if_false] at h5
        injection h5 with h5
        subst h5
        have hnext3 : w3.next = w.next + 1 := by
          rw [hw3next]
          rfl
        simp only [obs, hs, Bool.false_eq_true, if_false]
        simp only [World.free, World.alloc, World.tick]
        rw [hnext3]
        rw [if_neg (by omega : ¬ w.next + 1 = w.next)]
        replace hh : w.heap co = some st := hh
        simp [hh]

theorem C2_witness :
    storage_copy_ctor envW 0 ⟨3, MPtr.table 0⟩ w1 =
      (.ok (), ⟨3, MPtr.table 0⟩, w1.tick) ∧
    storage_assign envW ⟨3, MPtr.table 0⟩ ⟨0, MPtr.table 1⟩ w1 =
      (.error .copyError, ⟨3, MPtr.table 0⟩, w1.tick.tick.tick) ∧
    obs envW ⟨3, MPtr.table 0⟩ (w1.tick.tick.tick) =
      obs envW ⟨3, MPtr.table 0⟩ w1 := by
  have h := C2_assign_rollback envW ⟨3, MPtr.table 0⟩ ⟨0, MPtr.table 1⟩
    ⟨3, MPtr.table 0⟩ ⟨3, MPtr.table 0⟩ ⟨3, MPtr.table 0⟩
    w1 w1.tick w1.tick (w1.tick.tick) (w1.tick.tick.tick) (w1.tick.tick.tick)
    .copyError rfl rfl rfl rfl rfl
  exact ⟨rfl, h.1, h.2⟩

end FunctionTask
